import Mathlib

/-!
Shallow embedding of the NCBI GenBank retriever script
(`s26738_2025-2.py`): data model, the `NCBIRetriever` operations, the
interactive shell validators, and the `main` pipeline.  Remote calls
(`Entrez.efetch`, `Entrez.esearch`) are modelled as oracle parameters of
type `Except`, so that the caught-exception paths of the script become
the `.error` branches; printed lines and issued network requests are
returned explicitly as data.
-/

namespace S26738

/-- A parsed GenBank sequence record as consumed by `filter_records`:
accession identifier `rec.id`, raw sequence `rec.seq`, and free-text
`rec.description`. -/
structure SeqRecord where
  id : String
  seq : String
  description : String
deriving Repr, DecidableEq

/-- The row built from a record by the comprehension in `filter_records`:
`(rec.id, len(rec.seq), rec.description)`. -/
def toRow (rec : SeqRecord) : String × Nat × String :=
  (rec.id, rec.seq.length, rec.description)

/-- The length bound of the comprehension guard in `filter_records`:
`min_len <= len(rec.seq) <= max_len` (the bounds are Python ints, so they
range over `Int`; a sequence length is a `Nat`). -/
def lenOk (min_len max_len : Int) (rec : SeqRecord) : Bool :=
  decide (min_len ≤ (rec.seq.length : Int) ∧ (rec.seq.length : Int) ≤ max_len)

/-- `NCBIRetriever.filter_records`: the list comprehension
`[(rec.id, len(rec.seq), rec.description) for rec in records if min_len <= len(rec.seq) <= max_len]`,
which visits each record in order and conditionally yields its row. -/
def filter_records (records : List SeqRecord) (min_len max_len : Int) :
    List (String × Nat × String) :=
  records.filterMap fun rec =>
    if min_len ≤ (rec.seq.length : Int) ∧ (rec.seq.length : Int) ≤ max_len then
      some (toRow rec)
    else
      none

/-- The comprehension of `filter_records` is the same as filtering by the
length bound and then projecting each record to its row. -/
lemma filter_records_eq (records : List SeqRecord) (a b : Int) :
    filter_records records a b = (records.filter (lenOk a b)).map toRow := by
  induction records with
  | nil => rfl
  | cons r rs ih =>
      by_cases h : a ≤ (r.seq.length : Int) ∧ (r.seq.length : Int) ≤ b
      · simp [filter_records, List.filterMap_cons, lenOk, h, List.filter_cons] at ih ⊢
        exact ih
      · simp [filter_records, List.filterMap_cons, lenOk, h, List.filter_cons] at ih ⊢
        exact ih

/-- Every row produced by `filter_records` has its length field inside the
inclusive bound. -/
lemma mem_filter_records_bound {records : List SeqRecord} {a b : Int}
    {row : String × Nat × String} (h : row ∈ filter_records records a b) :
    a ≤ (row.2.1 : Int) ∧ (row.2.1 : Int) ≤ b := by
  rw [filter_records_eq] at h
  rcases List.mem_map.mp h with ⟨rec, hrec, hrow⟩
  rcases List.mem_filter.mp hrec with ⟨_, hok⟩
  have hb := of_decide_eq_true hok
  subst hrow
  simpa [toRow] using hb

/-- Reading a filtered row back as a record whose sequence has the row's
length field (the view used when `filter_records` is reapplied to its own
output). -/
def rowToRecord (row : String × Nat × String) : SeqRecord :=
  ⟨row.1, String.mk (List.replicate row.2.1 'N'), row.2.2⟩

lemma toRow_rowToRecord (row : String × Nat × String) :
    toRow (rowToRecord row) = row := by
  obtain ⟨i, l, d⟩ := row
  simp [toRow, rowToRecord, String.length]

/-- The state held on the `NCBIRetriever` object.  The script sets
`webenv`, `query_key`, `count`, `taxid` and `organism` only inside a
successful `search_taxid`; Python's `hasattr` checks become `Option`. -/
structure Retriever where
  webenv : Option String := none
  query_key : Option String := none
  count : Option Nat := none
  taxid : Option String := none
  organism : Option String := none
deriving Repr, DecidableEq

/-- A freshly constructed retriever: no search has happened, all five
session fields are absent. -/
def Retriever.init : Retriever := {}

/-- The fields of a successful `Entrez.esearch` reply that the script
reads: `Count`, `WebEnv`, `QueryKey`. -/
structure SearchResults where
  count : Nat
  webenv : String
  query_key : String
deriving Repr, DecidableEq

/-- The search term built by `search_taxid`: `txid<taxid>[Organism]`. -/
def searchTerm (tid : String) : String :=
  "txid" ++ tid ++ "[Organism]"

/-- Result of a `search_taxid` call: the updated object state, the value
returned to the caller (`None` becomes `none`), and the printed lines. -/
structure SearchOutcome where
  state : Retriever
  ret : Option Nat
  printed : List String
deriving Repr, DecidableEq

/-- `NCBIRetriever.search_taxid`.  The taxonomy lookup and the nucleotide
search are oracles; any raised exception is an `.error`, caught by the
`except` block which prints a message and returns `None`.  A zero count
prints the no-match message and returns `None` before any field is set;
otherwise the five session fields are stored and the count returned. -/
def search_taxid (r : Retriever) (taxonomy : Except String String)
    (esearch : String → Except String SearchResults) (tid : String) :
    SearchOutcome :=
  let msgs0 := ["Searching for records with taxID: " ++ tid]
  match taxonomy with
  | .error e => ⟨r, none, msgs0 ++ ["Error searching TaxID " ++ tid ++ ": " ++ e]⟩
  | .ok organism_name =>
    let msgs1 := msgs0 ++ ["Organism: " ++ organism_name ++ " (TaxID: " ++ tid ++ ")"]
    match esearch (searchTerm tid) with
    | .error e => ⟨r, none, msgs1 ++ ["Error searching TaxID " ++ tid ++ ": " ++ e]⟩
    | .ok results =>
      if results.count = 0 then
        ⟨r, none, msgs1 ++ ["No records found for " ++ organism_name]⟩
      else
        ⟨{ r with
            webenv := some results.webenv
            query_key := some results.query_key
            count := some results.count
            taxid := some tid
            organism := some organism_name },
          some results.count,
          msgs1 ++ ["Found " ++ toString results.count ++ " records"]⟩

/-- The parameters of an `Entrez.efetch` call issued by `fetch_records`:
`retstart`, `retmax`, `webenv`, `query_key`. -/
structure FetchRequest where
  retstart : Nat
  retmax : Nat
  webenv : String
  query_key : String
deriving Repr, DecidableEq

/-- Result of a `fetch_records` call: the network requests issued (empty
when the guard short-circuits), the parsed records returned, and the
printed lines. -/
structure FetchOutcome where
  requests : List FetchRequest
  records : List SeqRecord
  printed : List String
deriving Repr, DecidableEq

/-- `NCBIRetriever.fetch_records`.  If either session token is absent the
warning is printed and `[]` returned with no network request.  Otherwise
`batch_size = min(max_records, 500)`, a single `efetch` request is issued
(after the fixed 0.4s sleep, irrelevant to the result), and either the
parsed records or — on a caught exception — `[]` is returned. -/
def fetch_records (r : Retriever)
    (efetch : FetchRequest → Except String (List SeqRecord))
    (start : Nat) (max_records : Nat) : FetchOutcome :=
  match r.webenv, r.query_key with
  | some we, some qk =>
      let batch_size := min max_records 500
      let req : FetchRequest := ⟨start, batch_size, we, qk⟩
      match efetch req with
      | .ok records =>
          ⟨[req], records, ["Fetched " ++ toString records.length ++ " records."]⟩
      | .error e =>
          ⟨[req], [], ["Error fetching records: " ++ e]⟩
  | _, _ => ⟨[], [], ["No search results to fetch. Run search_taxid() first."]⟩

/-- The in-memory table built by `generate_csv`:
`pd.DataFrame(filtered_data, columns=["Accession", "Length", "Description"])`. -/
structure ReportTable where
  columns : List String
  rows : List (String × Nat × String)
deriving Repr, DecidableEq

/-- `NCBIRetriever.generate_csv`: builds the data frame from the filtered
rows with the three named columns, writes it (without index column) to
`taxid_<taxid>_report.csv` in the working directory, and returns the
frame.  The model returns the table together with the file name. -/
def generate_csv (tid : String) (filtered_data : List (String × Nat × String)) :
    ReportTable × String :=
  (⟨["Accession", "Length", "Description"], filtered_data⟩,
    "taxid_" ++ tid ++ "_report.csv")

/-- The email check of the shell loop: `"@" in email and "." in email`
(a one-character Python `in` test is character membership). -/
def validEmail (email : String) : Bool :=
  email.data.contains '@' && email.data.contains '.'

/-- The taxid check of the shell loop: `taxid.isdigit()`, true exactly for
a nonempty all-digit string. -/
def validTaxid (tid : String) : Bool :=
  !tid.data.isEmpty && tid.data.all (·.isDigit)

/-- The length-pair check of the shell loop: rejected when
`min_len <= 0 or max_len <= 0`, rejected when `min_len > max_len`,
accepted otherwise. -/
def validLengthPair (min_len max_len : Int) : Bool :=
  if min_len ≤ 0 ∨ max_len ≤ 0 then false
  else if min_len > max_len then false
  else true

/-- A `while True` input-validation loop over a stream of candidate
answers: the loop exits with the first accepted answer, and never exits
when no answer is accepted. -/
def firstValid (p : α → Bool) : List α → Option α
  | [] => none
  | x :: xs => if p x then some x else firstValid p xs

/-- Python truthiness of the value `main` receives back from
`search_taxid` (`if not count`): `None` and `0` are falsy. -/
def pyFalsy : Option Nat → Bool
  | none => true
  | some n => n == 0

/-- The pipeline stages of `main` after input validation. -/
inductive MainStep where
  | search
  | fetch
  | generateCsv
  | plot
deriving Repr, DecidableEq

/-- What a run of `main` did: the stages reached and the lines printed
after validation. -/
structure MainOutcome where
  steps : List MainStep
  printed : List String
deriving Repr, DecidableEq

/-- `main`: three validation loops (email, taxid, length pair) over the
given answer streams, then search on a fresh retriever, aborting when the
returned count is falsy; then a single fetch with `start=0,
max_records=500`, filter, aborting when the filter output is empty; then
CSV generation and the plot.  A validation loop that never accepts spins
forever, so no later stage runs: the model returns an empty outcome. -/
def mainRun (taxonomy : Except String String)
    (esearch : String → Except String SearchResults)
    (efetch : FetchRequest → Except String (List SeqRecord))
    (emails taxids : List String) (pairs : List (Int × Int)) : MainOutcome :=
  match firstValid validEmail emails, firstValid validTaxid taxids,
      firstValid (fun p => validLengthPair p.1 p.2) pairs with
  | some _, some tid, some (min_len, max_len) =>
      let s := search_taxid Retriever.init taxonomy esearch tid
      if pyFalsy s.ret then
        ⟨[MainStep.search], s.printed ++ ["No records found. Exiting."]⟩
      else
        let f := fetch_records s.state efetch 0 500
        let filtered := filter_records f.records min_len max_len
        if filtered.isEmpty then
          ⟨[MainStep.search, MainStep.fetch],
            s.printed ++ f.printed ++ ["No records matched the length criteria."]⟩
        else
          let csv := generate_csv tid filtered
          ⟨[MainStep.search, MainStep.fetch, MainStep.generateCsv, MainStep.plot],
            s.printed ++ f.printed ++ ["Saved CSV report to " ++ csv.2]⟩
  | _, _, _ => ⟨[], []⟩

lemma filter_records_cons (rec : SeqRecord) (rs : List SeqRecord) (a b : Int) :
    filter_records (rec :: rs) a b =
      if a ≤ (rec.seq.length : Int) ∧ (rec.seq.length : Int) ≤ b then
        toRow rec :: filter_records rs a b
      else filter_records rs a b := by
  by_cases h : a ≤ (rec.seq.length : Int) ∧ (rec.seq.length : Int) ≤ b <;>
    simp [filter_records, List.filterMap_cons, h]

/-- Reapplying the filter to rows that all satisfy the bound (viewed back
as records) gives the rows unchanged. -/
lemma filter_records_of_all_ok (rows : List (String × Nat × String)) (a b : Int)
    (h : ∀ row ∈ rows, a ≤ (row.2.1 : Int) ∧ (row.2.1 : Int) ≤ b) :
    filter_records (rows.map rowToRecord) a b = rows := by
  induction rows with
  | nil => rfl
  | cons row rest ih =>
      have hrow := h row (List.mem_cons_self row rest)
      have hlen : (rowToRecord row).seq.length = row.2.1 := by
        simp [rowToRecord, String.length]
      rw [List.map_cons, filter_records_cons, hlen, if_pos hrow,
        toRow_rowToRecord, ih (fun q hq => h q (List.mem_cons_of_mem _ hq))]

/-- C1: `filter_records` returns exactly the rows of those records whose
sequence length lies within the inclusive bound `min_len ≤ len ≤ max_len`,
preserving the original relative order of the input (its output is the
row image of the in-order filter, and a sublist of the row image of the
whole input). -/
theorem claim_C1_filter_records_exact (records : List SeqRecord)
    (min_len max_len : Int) :
    filter_records records min_len max_len
        = (records.filter (lenOk min_len max_len)).map toRow
      ∧ (filter_records records min_len max_len).Sublist (records.map toRow) := by
  refine ⟨filter_records_eq records min_len max_len, ?_⟩
  rw [filter_records_eq]
  exact (records.filter_sublist).map toRow

/-- C2: `filter_records` is idempotent: reapplied with the same bounds to
its own output — each row read back as a record whose sequence length is
the row's length field — it returns that output unchanged. -/
theorem claim_C2_filter_records_idempotent (records : List SeqRecord)
    (min_len max_len : Int) :
    filter_records ((filter_records records min_len max_len).map rowToRecord)
        min_len max_len
      = filter_records records min_len max_len :=
  filter_records_of_all_ok _ min_len max_len
    (fun _ hrow => mem_filter_records_bound hrow)

/-- C7: `generate_csv` builds a table with exactly one row per input
filtered row (indeed the very same rows) and the columns
`Accession, Length, Description` in that order, and returns it. -/
theorem claim_C7_generate_csv_shape (tid : String)
    (filtered_rows : List (String × Nat × String)) :
    (generate_csv tid filtered_rows).1.columns
        = ["Accession", "Length", "Description"]
      ∧ (generate_csv tid filtered_rows).1.rows.length = filtered_rows.length
      ∧ (generate_csv tid filtered_rows).1.rows = filtered_rows :=
  ⟨rfl, rfl, rfl⟩

/-- C8: the shell email check accepts `a@b.com` and rejects `abc`, `a@b`
and `a.com`. -/
theorem claim_C8_email_check :
    validEmail "a@b.com" = true ∧ validEmail "abc" = false
      ∧ validEmail "a@b" = false ∧ validEmail "a.com" = false := by
  decide

/-- C9: the shell length-pair check rejects `(0, 100)`, `(100, 50)` and
`(-1, 10)`, accepts `(50, 100)`, holds exactly when both bounds are
positive and `min_len ≤ max_len`, and `main` reaches no pipeline stage —
in particular no remote call — while the length-validation loop never
accepts. -/
theorem claim_C9_length_pair_check :
    (validLengthPair 0 100 = false ∧ validLengthPair 100 50 = false
        ∧ validLengthPair (-1) 10 = false ∧ validLengthPair 50 100 = true)
      ∧ (∀ a b : Int, validLengthPair a b = true ↔ 0 < a ∧ 0 < b ∧ a ≤ b)
      ∧ ∀ (taxonomy : Except String String)
          (esearch : String → Except String SearchResults)
          (efetch : FetchRequest → Except String (List SeqRecord))
          (emails taxids : List String) (pairs : List (Int × Int)),
          firstValid (fun q => validLengthPair q.1 q.2) pairs = none →
          (mainRun taxonomy esearch efetch emails taxids pairs).steps = [] := by
  refine ⟨by decide, ?_, ?_⟩
  · intro a b
    simp only [validLengthPair]
    split_ifs with h1 h2 <;> simp <;> omega
  · intro taxonomy esearch efetch emails taxids pairs hp
    cases he : firstValid validEmail emails <;>
      cases ht : firstValid validTaxid taxids <;>
        simp [mainRun, he, ht, hp]

/-- C3: when the session tokens are absent (no successful `search_taxid`
yet), `fetch_records` prints the warning, returns the empty sequence, and
issues no network request, for every `start` and `max_records`. -/
theorem claim_C3_fetch_without_search (r : Retriever)
    (efetch : FetchRequest → Except String (List SeqRecord))
    (start max_records : Nat)
    (h : r.webenv = none ∨ r.query_key = none) :
    fetch_records r efetch start max_records =
      ⟨[], [], ["No search results to fetch. Run search_taxid() first."]⟩ := by
  obtain ⟨owe, oqk, oc, ot, oo⟩ := r
  rcases h with h | h <;> simp only at h <;> subst h
  · rfl
  · cases owe <;> rfl

theorem claim_C3_witness :
    fetch_records Retriever.init (fun _ => Except.ok []) 0 500 =
      ⟨[], [], ["No search results to fetch. Run search_taxid() first."]⟩ :=
  claim_C3_fetch_without_search Retriever.init (fun _ => Except.ok []) 0 500
    (Or.inl rfl)

/-- C4: whenever the taxonomy lookup raises, the nucleotide search
raises, or the search count is zero, `search_taxid` on a fresh retriever
returns `None` and leaves all five session fields unset (the model is a
total function, so no exception escapes). -/
theorem claim_C4_search_failure (taxonomy : Except String String)
    (esearch : String → Except String SearchResults) (tid : String)
    (h : (∃ e, taxonomy = Except.error e)
      ∨ (∃ e, esearch (searchTerm tid) = Except.error e)
      ∨ (∃ res, esearch (searchTerm tid) = Except.ok res ∧ res.count = 0)) :
    (search_taxid Retriever.init taxonomy esearch tid).ret = none
      ∧ (search_taxid Retriever.init taxonomy esearch tid).state.webenv = none
      ∧ (search_taxid Retriever.init taxonomy esearch tid).state.query_key = none
      ∧ (search_taxid Retriever.init taxonomy esearch tid).state.count = none
      ∧ (search_taxid Retriever.init taxonomy esearch tid).state.taxid = none
      ∧ (search_taxid Retriever.init taxonomy esearch tid).state.organism = none := by
  cases htax : taxonomy with
  | error e => simp [search_taxid, htax, Retriever.init]
  | ok org =>
      cases hes : esearch (searchTerm tid) with
      | error e => simp [search_taxid, htax, hes, Retriever.init]
      | ok res =>
          have hc : res.count = 0 := by
            rcases h with ⟨e, he⟩ | ⟨e, he⟩ | ⟨res2, he, hc2⟩
            · rw [htax] at he; cases he
            · rw [hes] at he; cases he
            · rw [hes] at he
              injection he with he2
              rw [← he2] at hc2
              exact hc2
          simp [search_taxid, htax, hes, hc, Retriever.init]

theorem claim_C4_witness :
    (search_taxid Retriever.init (Except.error "network down")
        (fun _ => Except.ok ⟨1, "w", "k"⟩) "9606").ret = none
      ∧ (search_taxid Retriever.init (Except.error "network down")
          (fun _ => Except.ok ⟨1, "w", "k"⟩) "9606").state.webenv = none := by
  have h := claim_C4_search_failure (Except.error "network down")
    (fun _ => Except.ok ⟨1, "w", "k"⟩) "9606" (Or.inl ⟨"network down", rfl⟩)
  exact ⟨h.1, h.2.1⟩

/-- C5: whenever the session tokens are present, `fetch_records` issues
exactly one remote request, whose batch size is `min(max_records, 500)` —
hence never more than 500 records are requested in one call. -/
theorem claim_C5_fetch_batch_cap (r : Retriever) (we qk : String)
    (efetch : FetchRequest → Except String (List SeqRecord))
    (start max_records : Nat)
    (hwe : r.webenv = some we) (hqk : r.query_key = some qk) :
    (fetch_records r efetch start max_records).requests
        = [⟨start, min max_records 500, we, qk⟩]
      ∧ ∀ req ∈ (fetch_records r efetch start max_records).requests,
          req.retmax = min max_records 500 ∧ req.retmax ≤ 500 := by
  obtain ⟨owe, oqk, oc, ot, oo⟩ := r
  simp only at hwe hqk
  subst hwe
  subst hqk
  have hreqs : (fetch_records ⟨some we, some qk, oc, ot, oo⟩ efetch
      start max_records).requests = [⟨start, min max_records 500, we, qk⟩] := by
    cases hef : efetch ⟨start, min max_records 500, we, qk⟩ <;>
      simp [fetch_records, hef]
  refine ⟨hreqs, ?_⟩
  intro req hreq
  rw [hreqs] at hreq
  simp only [List.mem_singleton] at hreq
  subst hreq
  exact ⟨rfl, min_le_right _ _⟩

theorem claim_C5_witness :
    (fetch_records ⟨some "w", some "k", some 7, some "9606", some "Homo"⟩
        (fun _ => Except.ok []) 0 1000).requests = [⟨0, 500, "w", "k"⟩] :=
  (claim_C5_fetch_batch_cap ⟨some "w", some "k", some 7, some "9606", some "Homo"⟩
    "w" "k" (fun _ => Except.ok []) 0 1000 rfl rfl).1

/-- C10: a truthy (`some`) return from `search_taxid` carries a count of
at least 1 — the zero-count path returns `None` — and leaves all five
session fields set on the retriever, which is exactly the state
`fetch_records` requires. -/
theorem claim_C10_search_success_invariant (r : Retriever)
    (taxonomy : Except String String)
    (esearch : String → Except String SearchResults) (tid : String) (c : Nat)
    (h : (search_taxid r taxonomy esearch tid).ret = some c) :
    1 ≤ c
      ∧ (search_taxid r taxonomy esearch tid).state.webenv.isSome = true
      ∧ (search_taxid r taxonomy esearch tid).state.query_key.isSome = true
      ∧ (search_taxid r taxonomy esearch tid).state.count = some c
      ∧ (search_taxid r taxonomy esearch tid).state.taxid = some tid
      ∧ (search_taxid r taxonomy esearch tid).state.organism.isSome = true := by
  cases htax : taxonomy with
  | error e => rw [htax] at h; simp [search_taxid] at h
  | ok org =>
      cases hes : esearch (searchTerm tid) with
      | error e => rw [htax] at h; simp [search_taxid, hes] at h
      | ok res =>
          by_cases hc : res.count = 0
          · rw [htax] at h; simp [search_taxid, hes, hc] at h
          · rw [htax] at h
            simp [search_taxid, hes, hc] at h
            subst h
            simp [search_taxid, htax, hes, hc]
            exact Nat.one_le_iff_ne_zero.mpr hc

theorem claim_C10_witness :
    1 ≤ 5
      ∧ (search_taxid Retriever.init (Except.ok "Homo sapiens")
          (fun _ => Except.ok ⟨5, "w", "k"⟩) "9606").state.count = some 5 := by
  have h := claim_C10_search_success_invariant Retriever.init
    (Except.ok "Homo sapiens") (fun _ => Except.ok ⟨5, "w", "k"⟩) "9606" 5 rfl
  exact ⟨h.1, h.2.2.2.1⟩

/-- C6: when the count `main` gets back from `search_taxid` is falsy
(`None` or `0`), the run prints the exit message and halts right after
the search: no fetch, no CSV generation, no plot stage is reached. -/
theorem claim_C6_halt_on_no_count (taxonomy : Except String String)
    (esearch : String → Except String SearchResults)
    (efetch : FetchRequest → Except String (List SeqRecord))
    (emails taxids : List String) (pairs : List (Int × Int))
    (e tid : String) (p : Int × Int)
    (he : firstValid validEmail emails = some e)
    (ht : firstValid validTaxid taxids = some tid)
    (hp : firstValid (fun q => validLengthPair q.1 q.2) pairs = some p)
    (hz : pyFalsy (search_taxid Retriever.init taxonomy esearch tid).ret = true) :
    (mainRun taxonomy esearch efetch emails taxids pairs).steps = [MainStep.search]
      ∧ "No records found. Exiting."
          ∈ (mainRun taxonomy esearch efetch emails taxids pairs).printed
      ∧ MainStep.fetch ∉ (mainRun taxonomy esearch efetch emails taxids pairs).steps
      ∧ MainStep.generateCsv
          ∉ (mainRun taxonomy esearch efetch emails taxids pairs).steps
      ∧ MainStep.plot ∉ (mainRun taxonomy esearch efetch emails taxids pairs).steps := by
  obtain ⟨min_len, max_len⟩ := p
  simp [mainRun, he, ht, hp, hz]

theorem claim_C6_witness :
    (mainRun (Except.error "down") (fun _ => Except.ok ⟨1, "w", "k"⟩)
        (fun _ => Except.ok []) ["a@b.com"] ["9606"] [(50, 100)]).steps
      = [MainStep.search] :=
  (claim_C6_halt_on_no_count (Except.error "down")
    (fun _ => Except.ok ⟨1, "w", "k"⟩) (fun _ => Except.ok [])
    ["a@b.com"] ["9606"] [(50, 100)] "a@b.com" "9606" (50, 100)
    (by decide) (by decide) (by decide) rfl).1

theorem claim_C9_witness :
    (mainRun (Except.error "e") (fun _ => Except.error "e")
        (fun _ => Except.error "e") [] [] []).steps = [] :=
  claim_C9_length_pair_check.2.2 (Except.error "e") (fun _ => Except.error "e")
    (fun _ => Except.error "e") [] [] [] rfl

end S26738
